import Mathlib

/-!
# Verification of the TinaCMS build orchestration, auth flow and media list

Shallow embedding of:
- `packages/@tinacms/cli/src/buildTina/index.ts` (build setup commands,
  `ConfigBuilder.build`, `buildCmdBuild`, `auditCmdBuild`),
- `packages/tinacms/src/auth/authenticate.ts` (`authenticate`),
- the media list component (`ListMediaItem`).

Side-effecting build steps are modelled as traces of `BuildEvent`s; the
functions below mirror the control flow of the TypeScript source.  Behaviour
of collaborators whose implementation lives outside this repository
(`@tinacms/datalayer` bridges/stores, `resetGeneratedFolder`,
`Database.clearCache`) is modelled from the spec and marked as such.
-/

namespace Tinacms

/-- Bridge variants, as imported from `@tinacms/datalayer` and constructed in
`buildTina/index.ts`: `FilesystemBridge`, `AuditFileSystemBridge`,
`IsomorphicBridge`, each bound to a root path. -/
inductive Bridge where
  | filesystem (rootPath : String)
  | auditFilesystem (rootPath : String)
  | isomorphic (rootPath : String)
deriving DecidableEq

/-- Whether a bridge is the audit (read-only) variant. -/
def Bridge.isAudit : Bridge → Bool
  | .auditFilesystem _ => true
  | _ => false

/-- Errors surfaced by bridge operations. -/
inductive BridgeError where
  | writeDenied
  | notFound
  | ioError
deriving DecidableEq

/-- A content source: a finite map from paths to raw content. -/
abbrev Source := List (String × String)

/-- Modelled from the spec: the bridge implementations live in
`@tinacms/datalayer`, which is not under `src/`.  Per the spec (section 4.1),
the Audit variant fails every `put` with `WriteDenied` and leaves the source
untouched; the Direct (filesystem) and version-control-aware (isomorphic)
variants write the source in place.  Returns the operation result together
with the content source after the call. -/
def Bridge.put : Bridge → Source → String → String → Except BridgeError Unit × Source
  | .auditFilesystem _, src, _, _ => (.error .writeDenied, src)
  | .filesystem _, src, p, c => (.ok (), (p, c) :: src.filter (fun q => q.1 ≠ p))
  | .isomorphic _, src, p, c => (.ok (), (p, c) :: src.filter (fun q => q.1 ≠ p))

/-- `LevelStore(rootPath, useMemoryStore)` as constructed in
`buildTina/index.ts`. -/
structure LevelStore where
  rootPath : String
  useMemoryStore : Bool
deriving DecidableEq

/-- Modelled from the spec: the store implementation lives in
`@tinacms/datalayer`, not under `src/`.  Per the spec (section 4.2) the
in-memory variant is ephemeral and the other variant is a persistent
ordered-key store durable across process restarts. -/
def LevelStore.persistent (s : LevelStore) : Bool := !s.useMemoryStore

/-- The `Database` created by `createDatabase({ store, bridge })`: it owns one
bridge and one store. -/
structure Database where
  store : LevelStore
  bridge : Bridge
deriving DecidableEq

/-- The observable steps taken by the build commands, in the order the
TypeScript code performs them. -/
inductive BuildEvent where
  | isProjectTs
  | clearCache
  | mkdirp (dir : String)
  | storeClose
  | resetGeneratedFolder (dir : String)
  | storeOpen
  | compileSchema
  | addOutputPath (p : String)
  | buildSchema
  | indexContent
  | genTypedClient
  | buildAdmin
  | ensureDir (dir : String)
  | createDatabase
deriving DecidableEq

/-- Errors that abort a build run. -/
inductive BuildError where
  | rootPathMissing
  | schemaInvalid
deriving DecidableEq

/-- The compiled schema, reduced to the field `ConfigBuilder.build` inspects:
`compiledSchema.config?.remote?.rootPath`. -/
structure CompiledSchema where
  remoteRootPath : Option String
deriving DecidableEq

/-- `path.join(rootPath, '.tina', '__generated__')`. -/
def genPath (rootPath : String) : String := rootPath ++ "/.tina/__generated__"

/-- `ConfigBuilder.build({ dev, verbose, rootPath, local })`, as a trace of
events plus an outcome.  Mirrors the source order exactly:
`isProjectTs(rootPath)` runs first, then the root-path check throws if the
root path is absent; then `clearCache`, `mkdirp`, `store.close`,
`resetGeneratedFolder`, `store.open`, `compileSchema` (whose outcome is the
`compile` parameter), the conditional `bridge.addOutputPath`, and
`buildSchema`. -/
def configBuilderBuild (rootPath : Option String) (bridgeHasAddOutputPath : Bool)
    (compile : Option CompiledSchema) : List BuildEvent × Except BuildError CompiledSchema :=
  match rootPath with
  | none => ([.isProjectTs], .error .rootPathMissing)
  | some rp =>
    let gen := genPath rp
    let pre : List BuildEvent :=
      [.isProjectTs, .clearCache, .mkdirp gen, .storeClose,
       .resetGeneratedFolder gen, .storeOpen]
    match compile with
    | none => (pre ++ [.compileSchema], .error .schemaInvalid)
    | some cs =>
      let outputEvents : List BuildEvent :=
        match bridgeHasAddOutputPath, cs.remoteRootPath with
        | true, some p => [.addOutputPath p]
        | _, _ => []
      (pre ++ [.compileSchema] ++ outputEvents ++ [.buildSchema], .ok cs)

/-- `auditCmdBuild`: runs `ctx.builder.build(...)` and then
`ctx.database.indexContent(...)`.  On a build failure the thrown error
propagates and `indexContent` never runs. -/
def auditCmdBuild (rootPath : Option String) (bridgeHasAddOutputPath : Bool)
    (compile : Option CompiledSchema) : List BuildEvent × Except BuildError Unit :=
  match configBuilderBuild rootPath bridgeHasAddOutputPath compile with
  | (t, .ok _) => (t ++ [.indexContent], .ok ())
  | (t, .error e) => (t, .error e)

/-- `buildCmdBuild`: runs `ctx.builder.build(...)`, then
`ctx.builder.genTypedClient(...)`, then `buildAdmin(...)`.  The source comment
reads "always skip indexing in the build command": no `indexContent` call
appears anywhere in this command, so the `contentChanged` parameter — whether
the source content changed since the last index — is never consulted. -/
def buildCmdBuild (rootPath : Option String) (bridgeHasAddOutputPath : Bool)
    (compile : Option CompiledSchema) (contentChanged : Bool) :
    List BuildEvent × Except BuildError Unit :=
  match configBuilderBuild rootPath bridgeHasAddOutputPath compile with
  | (t, .ok _) => (t ++ [.genTypedClient, .buildAdmin], .ok ())
  | (t, .error e) => (t, .error e)

/-- Result of the `buildSetupCmd*` middlewares: the events they performed and
the bridge, store and database they attach to the context. -/
structure SetupResult where
  events : List BuildEvent
  bridge : Bridge
  store : LevelStore
  database : Database
deriving DecidableEq

/-- `buildSetup({ isomorphicGitBridge, rootPath, useMemoryStore })`: builds a
filesystem (or isomorphic-git) bridge, ensures
`<rootPath>/.tina/__generated__` exists, constructs
`LevelStore(rootPath, useMemoryStore)` and then `createDatabase`. -/
def buildSetup (rootPath : String) (isomorphicGitBridge : Bool)
    (useMemoryStore : Bool) : SetupResult :=
  let fsBridge := Bridge.filesystem rootPath
  let bridge := if isomorphicGitBridge then Bridge.isomorphic rootPath else fsBridge
  let store : LevelStore := { rootPath := rootPath, useMemoryStore := useMemoryStore }
  { events := [.ensureDir (genPath rootPath), .createDatabase]
    bridge := bridge
    store := store
    database := { store := store, bridge := bridge } }

/-- `buildSetupCmdBuild`: `buildSetup` with `useMemoryStore: true`. -/
def buildSetupCmdBuild (rootPath : String) (isomorphicGitBridge : Bool) : SetupResult :=
  buildSetup rootPath isomorphicGitBridge true

/-- `buildSetupCmdServerStart`: `buildSetup` with `useMemoryStore: false`. -/
def buildSetupCmdServerStart (rootPath : String) (isomorphicGitBridge : Bool) : SetupResult :=
  buildSetup rootPath isomorphicGitBridge false

/-- `buildSetupCmdAudit`: picks a plain `FilesystemBridge` when
`options.clean` is set and the `AuditFileSystemBridge` otherwise, ensures the
generated directory, constructs `LevelStore(rootPath, false)` and
`createDatabase`. -/
def buildSetupCmdAudit (rootPath : String) (clean : Bool) : SetupResult :=
  let bridge := if clean then Bridge.filesystem rootPath else Bridge.auditFilesystem rootPath
  let store : LevelStore := { rootPath := rootPath, useMemoryStore := false }
  { events := [.ensureDir (genPath rootPath), .createDatabase]
    bridge := bridge
    store := store
    database := { store := store, bridge := bridge } }

/-- The world state a build run acts on: the contents of the
generated-artifacts directory (`none` when absent), whether the store is
open, the store contents (indexed records), and the in-process cache. -/
structure World where
  genDir : Option (List String)
  storeIsOpen : Bool
  storeContents : List (String × String)
  cache : List (String × String)
deriving DecidableEq

/-- Effect of one build event on the world.  `indexContent` replaces the
store contents with the records derived from the current source (`indexed`).
Modelled from the spec where the implementation is outside `src/`:
`clearCache` drops all cache state and does not touch the store (section
4.3); `resetGeneratedFolder` (in `cmds/compile`, not under `src/`) resets the
generated directory to a fresh default state; `mkdirp`/`ensureDir` create
the directory when absent and leave an existing one alone. -/
def stepEvent (indexed : List (String × String)) (w : World) (e : BuildEvent) : World :=
  match e with
  | .clearCache => { w with cache := [] }
  | .mkdirp _ => { w with genDir := some (w.genDir.getD []) }
  | .ensureDir _ => { w with genDir := some (w.genDir.getD []) }
  | .storeClose => { w with storeIsOpen := false }
  | .resetGeneratedFolder _ => { w with genDir := some [] }
  | .storeOpen => { w with storeIsOpen := true }
  | .indexContent => { w with storeContents := indexed }
  | _ => w

/-- Run a trace of build events on a world. -/
def runEvents (indexed : List (String × String)) (w : World) (t : List BuildEvent) : World :=
  t.foldl (stepEvent indexed) w

/-- `a` occurs strictly before (some occurrence of) `b` in the trace `t`. -/
def SplitBefore (t : List BuildEvent) (a b : BuildEvent) : Prop :=
  ∃ l₁ l₂ l₃, t = l₁ ++ a :: (l₂ ++ b :: l₃)

/-- Executable check that some occurrence of `a` is strictly before some
occurrence of `b` in `t`. -/
def anyBefore (a b : BuildEvent) : List BuildEvent → Bool
  | [] => false
  | x :: rest => if x = a ∧ b ∈ rest then true else anyBefore a b rest

/-- The window-message source tag the auth listener waits for:
`const TINA_LOGIN_EVENT = 'tinaCloudLogin'`. -/
def tinaLoginEvent : String := "tinaCloudLogin"

/-- The `TokenObject` resolved by `authenticate`. -/
structure TokenObject where
  id_token : String
  access_token : Option String
  refresh_token : Option String
deriving DecidableEq

/-- The `data` payload of one incoming window `message` event. -/
structure MessageData where
  source : String
  id_token : String
  access_token : Option String
  refresh_token : Option String
deriving DecidableEq

/-- The observable state of one `authenticate` call: whether its promise has
resolved (and with what token), whether the popup tab is still open, and
whether the promise was ever rejected. -/
structure AuthState where
  resolvedToken : Option TokenObject
  popupOpen : Bool
  rejected : Bool
deriving DecidableEq

/-- The token built from a login message:
`resolve({ id_token: e.data.id_token, access_token: e.data.access_token,
refresh_token: e.data.refresh_token })`. -/
def tokenFromMessage (e : MessageData) : TokenObject :=
  { id_token := e.id_token
    access_token := e.access_token
    refresh_token := e.refresh_token }

/-- The listener's guard: `e.data.source === TINA_LOGIN_EVENT`. -/
def isLoginMessage (e : MessageData) : Bool :=
  e.source == tinaLoginEvent

/-- The `message` listener installed by `authenticate`: when
`e.data.source === TINA_LOGIN_EVENT` it closes the popup (if any) and calls
`resolve(...)`; a promise resolves at most once, so a later `resolve` call
leaves an already-resolved state unchanged.  Any other message is ignored.
The executor never calls `reject`. -/
def handleMessage (st : AuthState) (e : MessageData) : AuthState :=
  if isLoginMessage e then
    { resolvedToken :=
        match st.resolvedToken with
        | some t => some t
        | none => some (tokenFromMessage e)
      popupOpen := false
      rejected := st.rejected }
  else st

/-- `authenticate(clientId, frontendUrl)` as a function of the environment:
whether `popupWindow` returned a window, and the sequence of window `message`
events delivered to the listener. -/
def authenticate (popupOpened : Bool) (events : List MessageData) : AuthState :=
  events.foldl handleMessage
    { resolvedToken := none, popupOpen := popupOpened, rejected := false }

/-- Which action buttons `ListMediaItem` renders. -/
structure MediaButtons where
  showInsert : Bool
  showDelete : Bool
deriving DecidableEq

/-- `ListMediaItem`: the Insert button is rendered by
`onSelect && item.type === 'file' && ...` and the Delete button by
`onDelete && item.type === 'file' && ...`.  `itemType` is `item.type`
(`'file'` or `'dir'`), and the booleans say whether the optional `onSelect` /
`onDelete` callbacks were provided. -/
def ListMediaItem (itemType : String) (hasOnSelect hasOnDelete : Bool) : MediaButtons :=
  { showInsert := hasOnSelect && (itemType == "file")
    showDelete := hasOnDelete && (itemType == "file") }

/-! ## Helper lemmas -/

/-- If `a` occurs strictly before `b` in `t`, the executable check agrees. -/
lemma splitBefore_anyBefore {t : List BuildEvent} {a b : BuildEvent}
    (h : SplitBefore t a b) : anyBefore a b t = true := by
  obtain ⟨l₁, l₂, l₃, rfl⟩ := h
  induction l₁ with
  | nil => simp [anyBefore]
  | cons x l₁ ih =>
    by_cases hx : x = a ∧ b ∈ l₁ ++ a :: (l₂ ++ b :: l₃)
    · simp only [List.cons_append, anyBefore, List.append_eq]
      rw [if_pos hx]
    · simp only [List.cons_append, anyBefore, List.append_eq]
      rw [if_neg hx]
      exact ih

/-- The trace of a build whose schema compilation fails. -/
lemma failed_build_trace (rp : String) (b : Bool) :
    (configBuilderBuild (some rp) b none).1 =
      [.isProjectTs, .clearCache, .mkdirp (genPath rp), .storeClose,
       .resetGeneratedFolder (genPath rp), .storeOpen, .compileSchema] := rfl

/-- Stage ordering for any trace of the shape produced by a successful audit
run, abstracting over the optional `addOutputPath` events in `mid`. -/
lemma stage_order_of_mid (rp : String) (mid : List BuildEvent) :
    SplitBefore ([.isProjectTs, .clearCache, .mkdirp (genPath rp), .storeClose,
        .resetGeneratedFolder (genPath rp), .storeOpen, .compileSchema] ++
        (mid ++ [.buildSchema, .indexContent])) .clearCache .storeClose ∧
    SplitBefore ([.isProjectTs, .clearCache, .mkdirp (genPath rp), .storeClose,
        .resetGeneratedFolder (genPath rp), .storeOpen, .compileSchema] ++
        (mid ++ [.buildSchema, .indexContent])) .storeClose .storeOpen ∧
    SplitBefore ([.isProjectTs, .clearCache, .mkdirp (genPath rp), .storeClose,
        .resetGeneratedFolder (genPath rp), .storeOpen, .compileSchema] ++
        (mid ++ [.buildSchema, .indexContent])) .storeOpen .compileSchema ∧
    SplitBefore ([.isProjectTs, .clearCache, .mkdirp (genPath rp), .storeClose,
        .resetGeneratedFolder (genPath rp), .storeOpen, .compileSchema] ++
        (mid ++ [.buildSchema, .indexContent])) .compileSchema .buildSchema ∧
    SplitBefore ([.isProjectTs, .clearCache, .mkdirp (genPath rp), .storeClose,
        .resetGeneratedFolder (genPath rp), .storeOpen, .compileSchema] ++
        (mid ++ [.buildSchema, .indexContent])) .buildSchema .indexContent := by
  refine ⟨?_, ?_, ?_, ?_, ?_⟩
  · refine ⟨[.isProjectTs], [.mkdirp (genPath rp)],
      [.resetGeneratedFolder (genPath rp), .storeOpen, .compileSchema] ++
        (mid ++ [.buildSchema, .indexContent]), ?_⟩
    simp
  · refine ⟨[.isProjectTs, .clearCache, .mkdirp (genPath rp)],
      [.resetGeneratedFolder (genPath rp)],
      [.compileSchema] ++ (mid ++ [.buildSchema, .indexContent]), ?_⟩
    simp
  · refine ⟨[.isProjectTs, .clearCache, .mkdirp (genPath rp), .storeClose,
      .resetGeneratedFolder (genPath rp)], [],
      mid ++ [.buildSchema, .indexContent], ?_⟩
    simp
  · refine ⟨[.isProjectTs, .clearCache, .mkdirp (genPath rp), .storeClose,
      .resetGeneratedFolder (genPath rp), .storeOpen], mid, [.indexContent], ?_⟩
    simp
  · refine ⟨[.isProjectTs, .clearCache, .mkdirp (genPath rp), .storeClose,
      .resetGeneratedFolder (genPath rp), .storeOpen, .compileSchema] ++ mid,
      [], [], ?_⟩
    simp

/-- In any trace starting with the common build prefix, `clearCache` occurs
before `compileSchema`. -/
lemma clearCache_before_compile_tail (rp : String) (tail : List BuildEvent) :
    SplitBefore ([.isProjectTs, .clearCache, .mkdirp (genPath rp), .storeClose,
      .resetGeneratedFolder (genPath rp), .storeOpen, .compileSchema] ++ tail)
      .clearCache .compileSchema := by
  refine ⟨[.isProjectTs], [.mkdirp (genPath rp), .storeClose,
    .resetGeneratedFolder (genPath rp), .storeOpen], tail, ?_⟩
  simp

/-- In any audit-shaped trace, the `mkdirp` of the generated directory occurs
before `indexContent`. -/
lemma mkdirp_before_index_of_mid (rp : String) (mid : List BuildEvent) :
    SplitBefore ([.isProjectTs, .clearCache, .mkdirp (genPath rp), .storeClose,
      .resetGeneratedFolder (genPath rp), .storeOpen, .compileSchema] ++
      (mid ++ [.buildSchema, .indexContent])) (.mkdirp (genPath rp)) .indexContent := by
  refine ⟨[.isProjectTs, .clearCache],
    [.storeClose, .resetGeneratedFolder (genPath rp), .storeOpen, .compileSchema] ++
      (mid ++ [.buildSchema]), [], ?_⟩
  simp

/-- Closed form of the `authenticate` event loop: starting from state `st`,
the final resolved token is `st`'s (a promise resolves once) or else comes
from the first login message; the popup stays open exactly when it was open
and no login message arrived; `rejected` is never set. -/
lemma foldl_handleMessage (events : List MessageData) (st : AuthState) :
    events.foldl handleMessage st =
      { resolvedToken :=
          match st.resolvedToken with
          | some t => some t
          | none => (events.find? isLoginMessage).map tokenFromMessage
        popupOpen := st.popupOpen && !(events.any isLoginMessage)
        rejected := st.rejected } := by
  induction events generalizing st with
  | nil => cases st with
    | mk r p j => cases r <;> simp
  | cons e rest ih =>
    simp only [List.foldl_cons]
    rw [ih]
    by_cases h : isLoginMessage e = true
    · cases hst : st.resolvedToken with
      | some t =>
        simp [handleMessage, h, hst, List.find?_cons_of_pos, List.any_cons]
      | none =>
        simp [handleMessage, h, hst, List.find?_cons_of_pos, List.any_cons]
    · simp [handleMessage, h, List.find?_cons_of_neg, List.any_cons,
        Bool.eq_false_iff.mpr h]

/-! ## Claims -/

/-- C1 counterexample: an audit run started with the `clean` option set binds
a plain filesystem bridge, not an Audit bridge, and a write through it
succeeds — refuting "for every build run started in audit mode, the Bridge
bound to the Database is an Audit bridge whose write operations fail with
WriteDenied" at `rootPath = "r"`, `clean = true`. -/
theorem c1_counterexample :
    (buildSetupCmdAudit "r" true).database.bridge.isAudit = false ∧
    (Bridge.put (buildSetupCmdAudit "r" true).database.bridge [] "p" "c").1 =
      Except.ok () := by
  exact ⟨rfl, rfl⟩

/-- C1 (amended): for every audit run started without the `clean` option, the
Bridge bound to the Database is the Audit bridge, and every write through it
fails with `WriteDenied` and leaves the content source unchanged. -/
theorem c1_audit_bridge_write_denied (rp : String) (src : Source) (p c : String) :
    (buildSetupCmdAudit rp false).database.bridge.isAudit = true ∧
    Bridge.put (buildSetupCmdAudit rp false).database.bridge src p c =
      (Except.error BridgeError.writeDenied, src) := by
  exact ⟨rfl, rfl⟩

/-- C2 counterexample: in a run whose schema compilation fails, the
generated-artifacts directory has already been reset before compilation, so
its state after the run differs from before — refuting "the state of the
generated-artifacts directory and the Store is the same as before the build
started" at `rootPath = "r"` with initial directory contents `["stale"]`. -/
theorem c2_counterexample :
    ¬ ((runEvents [] ⟨some ["stale"], true, [("a", "1")], []⟩
          (configBuilderBuild (some "r") false none).1).genDir =
        some ["stale"] ∧
       (runEvents [] ⟨some ["stale"], true, [("a", "1")], []⟩
          (configBuilderBuild (some "r") false none).1).storeContents =
        [("a", "1")]) := by
  decide

/-- C2 (amended): when schema compilation fails, the whole build halts with
`SchemaInvalid` — no schema-dependent stage (`buildSchema`, `indexContent`)
runs and the Store contents are unchanged — but the generated-artifacts
directory has already been created and reset before compilation runs, so its
state is the fresh default rather than its pre-build state. -/
theorem c2_schema_invalid_halts (rp : String) (b : Bool) (w : World)
    (indexed : List (String × String)) :
    (configBuilderBuild (some rp) b none).2 = .error .schemaInvalid ∧
    BuildEvent.buildSchema ∉ (configBuilderBuild (some rp) b none).1 ∧
    BuildEvent.indexContent ∉ (configBuilderBuild (some rp) b none).1 ∧
    BuildEvent.genTypedClient ∉ (configBuilderBuild (some rp) b none).1 ∧
    (runEvents indexed w (configBuilderBuild (some rp) b none).1).storeContents =
      w.storeContents ∧
    (runEvents indexed w (configBuilderBuild (some rp) b none).1).genDir = some [] := by
  refine ⟨rfl, ?_, ?_, ?_, rfl, rfl⟩ <;>
    rw [failed_build_trace] <;> simp

/-- C3 counterexample: in a concrete audit run the Store close happens before
schema compilation, refuting "schema compilation completes before the Store
close/reopen ... begin" at `rootPath = "r"`. -/
theorem c3_counterexample :
    ¬ SplitBefore (auditCmdBuild (some "r") false (some ⟨none⟩)).1
        .compileSchema .storeClose := by
  intro h
  exact absurd (splitBefore_anyBefore h) (by decide)

/-- C3 (amended): every successful audit-mode run performs its stages in the
order cache clearing, Store close, Store reopen, schema compilation, schema
building, content indexing — so schema compilation completes before
`indexContent` begins, but the Store close/reopen happens before schema
compilation (while resetting the generated folder), not after it. -/
theorem c3_stage_order (rp : String) (b : Bool) (cs : CompiledSchema) :
    SplitBefore (auditCmdBuild (some rp) b (some cs)).1 .clearCache .storeClose ∧
    SplitBefore (auditCmdBuild (some rp) b (some cs)).1 .storeClose .storeOpen ∧
    SplitBefore (auditCmdBuild (some rp) b (some cs)).1 .storeOpen .compileSchema ∧
    SplitBefore (auditCmdBuild (some rp) b (some cs)).1 .compileSchema .buildSchema ∧
    SplitBefore (auditCmdBuild (some rp) b (some cs)).1 .buildSchema .indexContent := by
  obtain ⟨ro⟩ := cs
  cases b with
  | false =>
    cases ro with
    | none => exact stage_order_of_mid rp []
    | some p => exact stage_order_of_mid rp []
  | true =>
    cases ro with
    | none => exact stage_order_of_mid rp []
    | some p => exact stage_order_of_mid rp [.addOutputPath p]

/-- C4: the one-shot build command constructs the Database with an in-memory
(ephemeral) `LevelStore`, the server-start command with a persistent one, and
both stores (and bridges) are bound to the given root path. -/
theorem c4_store_selection (rp : String) (iso : Bool) :
    (buildSetupCmdBuild rp iso).database.store.useMemoryStore = true ∧
    (buildSetupCmdBuild rp iso).database.store.persistent = false ∧
    (buildSetupCmdServerStart rp iso).database.store.useMemoryStore = false ∧
    (buildSetupCmdServerStart rp iso).database.store.persistent = true ∧
    (buildSetupCmdBuild rp iso).database.store.rootPath = rp ∧
    (buildSetupCmdServerStart rp iso).database.store.rootPath = rp := by
  exact ⟨rfl, rfl, rfl, rfl, rfl, rfl⟩

/-- C5 counterexample: a one-shot build run in which the content did change
still performs no `indexContent` call — refuting "when content did change,
the build performs a reindex before generating the client" at
`rootPath = "r"`, `contentChanged = true`. -/
theorem c5_counterexample :
    BuildEvent.indexContent ∉ (buildCmdBuild (some "r") false (some ⟨none⟩) true).1 := by
  decide

/-- C5 (amended): the one-shot build command always skips reindexing —
`Database.indexContent` is never called by `buildCmdBuild`, whether or not
the source content changed since the last index. -/
theorem c5_build_never_reindexes (rootPath : Option String) (b : Bool)
    (compile : Option CompiledSchema) (contentChanged : Bool) :
    BuildEvent.indexContent ∉ (buildCmdBuild rootPath b compile contentChanged).1 := by
  cases rootPath with
  | none =>
    rw [show (buildCmdBuild none b compile contentChanged).1 =
      [.isProjectTs] from rfl]
    simp
  | some rp =>
    cases compile with
    | none =>
      rw [show (buildCmdBuild (some rp) b none contentChanged).1 =
        [.isProjectTs, .clearCache, .mkdirp (genPath rp), .storeClose,
         .resetGeneratedFolder (genPath rp), .storeOpen, .compileSchema] from rfl]
      simp
    | some cs =>
      obtain ⟨ro⟩ := cs
      cases b with
      | false =>
        cases ro with
        | none =>
          rw [show (buildCmdBuild (some rp) false (some ⟨none⟩) contentChanged).1 =
            [.isProjectTs, .clearCache, .mkdirp (genPath rp), .storeClose,
             .resetGeneratedFolder (genPath rp), .storeOpen, .compileSchema,
             .buildSchema, .genTypedClient, .buildAdmin] from rfl]
          simp
        | some p =>
          rw [show (buildCmdBuild (some rp) false (some ⟨some p⟩) contentChanged).1 =
            [.isProjectTs, .clearCache, .mkdirp (genPath rp), .storeClose,
             .resetGeneratedFolder (genPath rp), .storeOpen, .compileSchema,
             .buildSchema, .genTypedClient, .buildAdmin] from rfl]
          simp
      | true =>
        cases ro with
        | none =>
          rw [show (buildCmdBuild (some rp) true (some ⟨none⟩) contentChanged).1 =
            [.isProjectTs, .clearCache, .mkdirp (genPath rp), .storeClose,
             .resetGeneratedFolder (genPath rp), .storeOpen, .compileSchema,
             .buildSchema, .genTypedClient, .buildAdmin] from rfl]
          simp
        | some p =>
          rw [show (buildCmdBuild (some rp) true (some ⟨some p⟩) contentChanged).1 =
            [.isProjectTs, .clearCache, .mkdirp (genPath rp), .storeClose,
             .resetGeneratedFolder (genPath rp), .storeOpen, .compileSchema,
             .addOutputPath p, .buildSchema, .genTypedClient, .buildAdmin] from rfl]
          simp

/-- C6: calling `ConfigBuilder.build` with an absent root path fails with the
fatal configuration error `rootPathMissing`, and nothing past the root-path
check executes (only the preceding `isProjectTs` probe appears in the
trace). -/
theorem c6_missing_root_path_fatal (b : Bool) (compile : Option CompiledSchema) :
    configBuilderBuild none b compile =
      ([BuildEvent.isProjectTs], Except.error BuildError.rootPathMissing) := by
  exact rfl

/-- C7: in every build run (with a root path), `Database.clearCache()` is
called before `compileSchema` produces the new compiled schema, and
`clearCache` empties the cache without touching the Store contents, the
Store open/closed state, or the generated directory. -/
theorem c7_clear_cache_before_compile (rp : String) (b : Bool)
    (compile : Option CompiledSchema) (indexed : List (String × String)) (w : World) :
    SplitBefore (configBuilderBuild (some rp) b compile).1 .clearCache .compileSchema ∧
    (stepEvent indexed w .clearCache).storeContents = w.storeContents ∧
    (stepEvent indexed w .clearCache).storeIsOpen = w.storeIsOpen ∧
    (stepEvent indexed w .clearCache).genDir = w.genDir ∧
    (stepEvent indexed w .clearCache).cache = [] := by
  refine ⟨?_, rfl, rfl, rfl, rfl⟩
  cases compile with
  | none => exact clearCache_before_compile_tail rp []
  | some cs =>
    obtain ⟨ro⟩ := cs
    cases b with
    | false =>
      cases ro with
      | none => exact clearCache_before_compile_tail rp [.buildSchema]
      | some p => exact clearCache_before_compile_tail rp [.buildSchema]
    | true =>
      cases ro with
      | none => exact clearCache_before_compile_tail rp [.buildSchema]
      | some p =>
        exact clearCache_before_compile_tail rp [.addOutputPath p, .buildSchema]

/-- C8: every setup command (build, server-start, audit) ensures the
generated-artifacts directory `<rootPath>/.tina/__generated__` before the
Database is created, `ConfigBuilder.build` re-creates it (`mkdirp`) before
indexing begins, and the ensure step creates the directory when it is
absent. -/
theorem c8_generated_dir_ensured (rp : String) (iso clean b : Bool)
    (cs : CompiledSchema) (indexed : List (String × String)) (w : World) :
    SplitBefore (buildSetupCmdBuild rp iso).events
      (.ensureDir (genPath rp)) .createDatabase ∧
    SplitBefore (buildSetupCmdServerStart rp iso).events
      (.ensureDir (genPath rp)) .createDatabase ∧
    SplitBefore (buildSetupCmdAudit rp clean).events
      (.ensureDir (genPath rp)) .createDatabase ∧
    SplitBefore (auditCmdBuild (some rp) b (some cs)).1
      (.mkdirp (genPath rp)) .indexContent ∧
    ((stepEvent indexed w (.ensureDir (genPath rp))).genDir).isSome = true := by
  refine ⟨⟨[], [], [], rfl⟩, ⟨[], [], [], rfl⟩, ⟨[], [], [], rfl⟩, ?_, rfl⟩
  obtain ⟨ro⟩ := cs
  cases b with
  | false =>
    cases ro with
    | none => exact mkdirp_before_index_of_mid rp []
    | some p => exact mkdirp_before_index_of_mid rp []
  | true =>
    cases ro with
    | none => exact mkdirp_before_index_of_mid rp []
    | some p => exact mkdirp_before_index_of_mid rp [.addOutputPath p]

/-- C9: `authenticate` never rejects; its promise resolves exactly when a
window message whose `data.source` is `'tinaCloudLogin'` arrives, with the
token fields taken verbatim from the first such message; and the popup stays
open exactly when it was opened and no login message arrived (so it is closed
on resolution). -/
theorem c9_authenticate_resolution (popupOpened : Bool) (events : List MessageData) :
    (authenticate popupOpened events).rejected = false ∧
    (authenticate popupOpened events).resolvedToken =
      (events.find? isLoginMessage).map tokenFromMessage ∧
    (authenticate popupOpened events).popupOpen =
      (popupOpened && !(events.any isLoginMessage)) := by
  unfold authenticate
  rw [foldl_handleMessage]
  exact ⟨rfl, rfl, rfl⟩

/-- C10: `ListMediaItem` renders the Insert button exactly when an `onSelect`
callback is provided and the item is a file, the Delete button exactly when
an `onDelete` callback is provided and the item is a file, and renders
neither button for a directory item no matter which callbacks are
supplied. -/
theorem c10_media_item_buttons (itemType : String) (hasOnSelect hasOnDelete : Bool) :
    ((ListMediaItem itemType hasOnSelect hasOnDelete).showInsert = true ↔
      hasOnSelect = true ∧ itemType = "file") ∧
    ((ListMediaItem itemType hasOnSelect hasOnDelete).showDelete = true ↔
      hasOnDelete = true ∧ itemType = "file") ∧
    ListMediaItem "dir" hasOnSelect hasOnDelete = ⟨false, false⟩ := by
  refine ⟨?_, ?_, ?_⟩
  · simp [ListMediaItem]
  · simp [ListMediaItem]
  · simp [ListMediaItem]

end Tinacms
